import Mathlib

/-!
Verification of `plc_dashboard.py` (Siemens-Snap7 PLC dashboard).

The Python source is shallowly embedded: Python `dict`s become association
lists preserving insertion order (Python 3.7+ dicts are ordered), the
`collections.deque(maxlen=...)` becomes a list with FIFO eviction on append,
exceptions become `Except String`, and the external `snap7` client and
`snap7.util` decoders become oracle structures whose outcomes the theorems
quantify over.
-/

set_option autoImplicit false

namespace PLCDash

variable {α : Type} {β : Type}

/-- Lookup in an insertion-ordered association list: first binding of `k`
(Python `dict` lookup; Python dicts have at most one binding per key, which
`alistSet` maintains). -/
def alistGet : List (String × β) → String → Option β
  | [], _ => none
  | (k', v) :: rest, k => if k' = k then some v else alistGet rest k

/-- `m[k] = v` on a Python dict: overwrite in place if the key is present
(keeping its position), else append the new binding at the end
(insertion order). -/
def alistSet : List (String × β) → String → β → List (String × β)
  | [], k, v => [(k, v)]
  | (k', v') :: rest, k, v =>
    if k' = k then (k, v) :: rest else (k', v') :: alistSet rest k v

/-- Python `dict.get(k, default)`: pure lookup, never inserts.  The dict is
returned unchanged; the state-passing shape records that `.get` does not
mutate (contrast `defaultdict_getitem`). -/
def dict_get (m : List (String × β)) (k : String) (default : β) :
    β × List (String × β) :=
  ((alistGet m k).getD default, m)

/-- Python `defaultdict.__getitem__`: lookup that inserts the default value
when the key is missing. -/
def defaultdict_getitem (default : β) (m : List (String × β)) (k : String) :
    β × List (String × β) :=
  match alistGet m k with
  | some v => (v, m)
  | none => (default, alistSet m k default)

/-- `collections.deque(maxlen=cap)` append: add on the right, evicting from
the left whatever exceeds the capacity (`deque(maxlen=0)` keeps nothing). -/
def dequeAppend (cap : Nat) (d : List α) (x : α) : List α :=
  (d ++ [x]).drop ((d ++ [x]).length - cap)

/-- `DataBuffer` (source lines 30–45): per-signal bounded history.
`data` embeds `self._data`, a `defaultdict(lambda: deque(maxlen=maxlen))`.
The `threading.Lock` only serialises accesses and has no sequential effect,
so it is not modelled. -/
structure DataBuffer (α : Type) where
  maxlen : Nat
  data : List (String × List α)

/-- `DataBuffer.__init__(maxlen=500)`: empty store. -/
def DataBuffer.init (maxlen : Nat) : DataBuffer α :=
  ⟨maxlen, []⟩

/-- `DataBuffer.append`: `self._data[key].append((timestamp, value))` — the
defaultdict lookup creates the deque on first use, then the deque append
evicts the oldest sample when at capacity.  The sample `(timestamp, value)`
is an opaque `α`. -/
def DataBuffer.append (b : DataBuffer α) (key : String) (sample : α) :
    DataBuffer α :=
  let r := defaultdict_getitem [] b.data key
  { b with data := alistSet r.2 key (dequeAppend b.maxlen r.1 sample) }

/-- `DataBuffer.snapshot`:
`{key: list(self._data.get(key, [])) for key in keys}` — a dict built over
the requested keys in order, each mapped to a copy of its current history,
with `.get` (never the inserting `__getitem__`) threaded in state-passing
style. -/
def DataBuffer.snapshot : DataBuffer α → List String →
    List (String × List α) × DataBuffer α
  | b, [] => ([], b)
  | b, k :: rest =>
    let r0 := dict_get b.data k []
    let r := DataBuffer.snapshot { b with data := r0.2 } rest
    ((k, r0.1) :: r.1, r.2)

/-- A sequence of appends to one key (a polling history). -/
def appendAll (b : DataBuffer α) (k : String) (ss : List α) : DataBuffer α :=
  ss.foldl (fun acc s => acc.append k s) b

/-- The history currently stored for key `k` (missing key reads as empty,
as both the defaultdict and `.get(key, [])` treat it). -/
def histOf (b : DataBuffer α) (k : String) : List α :=
  (alistGet b.data k).getD []

/-- The last `n` elements of a list. -/
def takeLast (n : Nat) (l : List α) : List α :=
  l.drop (l.length - n)

theorem alistGet_alistSet_self (m : List (String × β)) (k : String) (v : β) :
    alistGet (alistSet m k v) k = some v := by
  induction m with
  | nil => simp [alistGet, alistSet]
  | cons hd tl ih =>
    obtain ⟨k', v'⟩ := hd
    by_cases h : k' = k
    · simp [alistGet, alistSet, h]
    · simp [alistGet, alistSet, h, ih]

theorem histOf_append (b : DataBuffer α) (k : String) (s : α) :
    histOf (b.append k s) k = dequeAppend b.maxlen (histOf b k) s := by
  unfold DataBuffer.append histOf defaultdict_getitem
  cases h : alistGet b.data k <;>
    simp [h, alistGet_alistSet_self]

theorem maxlen_append (b : DataBuffer α) (k : String) (s : α) :
    (b.append k s).maxlen = b.maxlen := rfl

theorem takeLast_of_le {n : Nat} {l : List α} (h : l.length ≤ n) :
    takeLast n l = l := by
  unfold takeLast
  rw [Nat.sub_eq_zero_of_le h, List.drop_zero]

theorem length_takeLast (n : Nat) (l : List α) :
    (takeLast n l).length = min n l.length := by
  unfold takeLast
  rw [List.length_drop]
  omega

theorem takeLast_append_left (n : Nat) (l1 l2 : List α) :
    takeLast n (takeLast n l1 ++ l2) = takeLast n (l1 ++ l2) := by
  by_cases h : l1.length ≤ n
  · rw [takeLast_of_le h]
  · unfold takeLast
    rw [List.length_append, List.length_drop, List.length_append]
    have hd : l1.length - n ≤ l1.length := Nat.sub_le _ _
    have e1 : l1.length + l2.length - n
        = (l1.length - n) + (l1.length - (l1.length - n) + l2.length - n) := by
      omega
    rw [e1, ← List.drop_drop, List.drop_append_of_le_length hd]

theorem dequeAppend_eq_takeLast (cap : Nat) (d : List α) (x : α) :
    dequeAppend cap d x = takeLast cap (d ++ [x]) := rfl

theorem length_dequeAppend_le (cap : Nat) (d : List α) (x : α) :
    (dequeAppend cap d x).length ≤ cap := by
  rw [dequeAppend_eq_takeLast, length_takeLast]
  omega

theorem histOf_appendAll (b : DataBuffer α) (k : String) (ss : List α)
    (hle : (histOf b k).length ≤ b.maxlen) :
    histOf (appendAll b k ss) k = takeLast b.maxlen (histOf b k ++ ss) := by
  induction ss generalizing b with
  | nil =>
    simp only [appendAll, List.foldl_nil, List.append_nil]
    exact (takeLast_of_le hle).symm
  | cons x ss ih =>
    have step : appendAll b k (x :: ss) = appendAll (b.append k x) k ss := rfl
    rw [step, ih (b.append k x)
      (by rw [histOf_append, maxlen_append]; exact length_dequeAppend_le _ _ _),
      histOf_append, maxlen_append, dequeAppend_eq_takeLast,
      takeLast_append_left]
    simp

theorem snapshot_fst (b : DataBuffer α) (keys : List String) :
    (b.snapshot keys).1 = keys.map (fun k => (k, histOf b k)) := by
  induction keys with
  | nil => rfl
  | cons k rest ih =>
    simp [DataBuffer.snapshot, dict_get, histOf, ih]

theorem alistGet_map_self (keys : List String) (f : String → List α)
    (k : String) (hmem : k ∈ keys) :
    alistGet (keys.map (fun k' => (k', f k'))) k = some (f k) := by
  induction keys with
  | nil => cases hmem
  | cons k' rest ih =>
    by_cases h : k' = k
    · subst h; simp [alistGet]
    · rcases List.mem_cons.mp hmem with h' | h'
      · exact absurd h'.symm h
      · simp [alistGet, h, ih h']

/-- Claim C1: for every key and every sequence of `capacity + n` appends
(`n ≥ 0`) to that key of a fresh-key store, a subsequent snapshot of that
key returns exactly the last `capacity` samples appended, in insertion
order. -/
theorem c1_snapshot_last_capacity (cap n : Nat) (b : DataBuffer α)
    (k : String) (ss : List α)
    (hb : b.maxlen = cap) (hk : alistGet b.data k = none)
    (hlen : ss.length = cap + n) :
    alistGet ((appendAll b k ss).snapshot [k]).1 k = some (ss.drop n) := by
  have hh : histOf b k = [] := by simp [histOf, hk]
  have hle : (histOf b k).length ≤ b.maxlen := by simp [hh]
  have hn : ss.length - cap = n := by omega
  rw [snapshot_fst, alistGet_map_self _ _ _ (by simp),
    histOf_appendAll b k ss hle, hh, hb]
  simp [takeLast, hn]

/-- Witness for C1: the spec's scenario — capacity 3, appends
`(1,10), (2,20), (3,30), (4,40)` to `"A.x"`, snapshot returns
`[(2,20), (3,30), (4,40)]`. -/
theorem c1_snapshot_last_capacity_witness :
    alistGet ((appendAll (DataBuffer.init 3) "A.x"
        [((1 : Int), (10 : Int)), (2, 20), (3, 30), (4, 40)]).snapshot
        ["A.x"]).1 "A.x" = some [(2, 20), (3, 30), (4, 40)] := by
  have h := c1_snapshot_last_capacity 3 1 (DataBuffer.init 3) "A.x"
    [((1 : Int), (10 : Int)), (2, 20), (3, 30), (4, 40)] rfl rfl rfl
  simpa using h

/-- Claim C5: `snapshot` on a key that was never appended to returns an
empty sequence for that key — the key is present in the result, mapped to
`[]`, and no error is possible (the embedding is a total function). -/
theorem c5_snapshot_missing_key (b : DataBuffer α) (keys : List String)
    (k : String) (hk : alistGet b.data k = none) (hmem : k ∈ keys) :
    alistGet (b.snapshot keys).1 k = some [] := by
  rw [snapshot_fst, alistGet_map_self _ _ _ hmem]
  simp [histOf, hk]

/-- Witness for C5: the spec's scenario — querying `["A.x", "B.y"]` when
only `"A.x"` has history maps `"B.y"` to `[]`. -/
theorem c5_snapshot_missing_key_witness :
    alistGet ((⟨3, [("A.x", [((1 : Int), (10 : Int))])]⟩ :
        DataBuffer (Int × Int)).snapshot ["A.x", "B.y"]).1 "B.y"
      = some [] :=
  c5_snapshot_missing_key _ ["A.x", "B.y"] "B.y" rfl (by simp)

/-- Claim C9: `snapshot` leaves the store completely unchanged — it uses
`dict.get`, never the defaultdict's inserting `__getitem__`, so no key is
created, removed or modified. -/
theorem c9_snapshot_frame (b : DataBuffer α) (keys : List String) :
    (b.snapshot keys).2 = b := by
  induction keys with
  | nil => rfl
  | cons k rest ih =>
    simpa [DataBuffer.snapshot, dict_get] using ih

instance exceptDecEq {ε α : Type} [DecidableEq ε] [DecidableEq α] :
    DecidableEq (Except ε α) := fun a b =>
  match a, b with
  | .error e, .error f =>
    if h : e = f then .isTrue (by rw [h])
    else .isFalse (fun hc => h (Except.error.inj hc))
  | .error _, .ok _ => .isFalse (fun hc => Except.noConfusion hc)
  | .ok _, .error _ => .isFalse (fun hc => Except.noConfusion hc)
  | .ok x, .ok y =>
    if h : x = y then .isTrue (by rw [h])
    else .isFalse (fun hc => h (Except.ok.inj hc))

/-- Python `str.lower()` restricted to its ASCII behaviour (the type names
in play are ASCII). -/
def pyLower (s : String) : String :=
  String.mk (s.data.map Char.toLower)

/-- A decoded tag value.  The concrete numerics come from the external
`snap7.util` decoders (out of scope per the spec), so floats are
represented abstractly by an integer token. -/
inductive Value where
  | real : Int → Value
  | int : Int → Value
  | dint : Int → Value
  | bool : Bool → Value
deriving DecidableEq, Repr

/-- `Tag` (source lines 20–27): one signal descriptor.  `parse` is the
optional custom decoder; raw bytes are `List Nat`, and a decoder that
raises is an `Except.error`. -/
structure Tag where
  name : String
  db_number : Int
  start : Int
  size : Int
  data_type : String
  parse : Option (List Nat → Except String Value)

/-- Oracle for the external `snap7.client.Client`:
`connect` is the combined outcome of `client.connect(...)` followed by
`client.get_connected()` (`.error e` = `connect` raised with message `e`,
`.ok b` = it returned and `get_connected()` reported `b`); `alive` is what
`get_connected()` reports when `_ensure_connection` polls it; `db_read`
gives `client.db_read(db_number, start, size)` per argument triple. -/
structure Env where
  connect : Except String Bool
  alive : Bool
  db_read : Int → Int → Int → Except String (List Nat)

/-- Oracle for the external `snap7.util` decoders (each may raise, e.g. on
a short buffer). -/
structure Snap7Util where
  get_real : List Nat → Except String Value
  get_int : List Nat → Except String Value
  get_dint : List Nat → Except String Value
  get_bool : List Nat → Except String Value

/-- `PLCManager` mutable state plus its static configuration
(source lines 48–58).  The `snap7` client object lives in `Env`; the
per-manager `threading.Lock` has no sequential effect. -/
structure PLCManager where
  name : String
  ip : String
  rack : Int
  slot : Int
  tags : List Tag
  last_error : Option String
  connected : Bool

/-- `PLCManager.__init__`: starts disconnected with no recorded error. -/
def PLCManager.init (name ip : String) (rack slot : Int) (tags : List Tag) :
    PLCManager :=
  ⟨name, ip, rack, slot, tags, none, false⟩

/-- `PLCManager.connect` (source lines 60–75).  Returns the new state and
the number of `client.connect` invocations performed (0 on the early
return, 1 otherwise); logging is ignored. -/
def PLCManager.connect (env : Env) (m : PLCManager) : PLCManager × Nat :=
  if m.connected then (m, 0)
  else
    match env.connect with
    | .ok b =>
      ({ m with connected := b,
                last_error := if b then none
                              else some "Unknown connection issue" }, 1)
    | .error exc =>
      ({ m with connected := false,
                last_error := some ("Connection error: " ++ exc) }, 1)

/-- `PLCManager._ensure_connection` (source lines 77–81).  Returns the
boolean result, the new state, and the number of `client.connect`
invocations.  The `or` is Python's short-circuit: `get_connected()` is
polled only when `self.connected` holds. -/
def PLCManager.ensure_connection (env : Env) (m : PLCManager) :
    Bool × PLCManager × Nat :=
  if !m.connected || !env.alive then
    let m1 : PLCManager := { m with connected := false }
    let r := m1.connect env
    (r.1.connected, r.1, r.2)
  else
    (m.connected, m, 0)

/-- `PLCManager._parse_value` (source lines 83–95): custom decoder first,
else dispatch on the lower-cased type name, else
`ValueError(f"Unsupported data type: ...")`. -/
def parse_value (util : Snap7Util) (tag : Tag) (raw : List Nat) :
    Except String Value :=
  match tag.parse with
  | some f => f raw
  | none =>
    let data_type := pyLower tag.data_type
    if data_type = "real" then util.get_real raw
    else if data_type = "int" then util.get_int raw
    else if data_type = "dint" then util.get_dint raw
    else if data_type = "bool" then util.get_bool raw
    else .error ("Unsupported data type: " ++ tag.data_type)

/-- The body of one loop iteration of `read_tags`: `db_read` then decode,
the first exception winning. -/
def readOne (env : Env) (util : Snap7Util) (tag : Tag) : Except String Value :=
  match env.db_read tag.db_number tag.start tag.size with
  | .error e => .error e
  | .ok raw => parse_value util tag raw

/-- The `for tag in self.tags` loop of `read_tags` (source lines 101–109):
on success insert into the `values` dict and continue; on the first
exception record `last_error`, force `connected = False`, and `break`. -/
def read_tags_go (env : Env) (util : Snap7Util) :
    PLCManager → List (String × Value) → List Tag →
    List (String × Value) × PLCManager
  | m, values, [] => (values, m)
  | m, values, tag :: rest =>
    match readOne env util tag with
    | .ok v => read_tags_go env util m (alistSet values tag.name v) rest
    | .error exc =>
      (values,
       { m with last_error := some ("Read error for " ++ tag.name ++ ": " ++ exc),
                connected := false })

/-- `PLCManager.read_tags` (source lines 97–110): returns the values dict,
the new manager state, and the number of `client.connect` invocations. -/
def PLCManager.read_tags (env : Env) (util : Snap7Util) (m : PLCManager) :
    List (String × Value) × PLCManager × Nat :=
  let r := m.ensure_connection env
  if !r.1 then ([], r.2.1, r.2.2)
  else
    let r2 := read_tags_go env util r.2.1 [] r.2.1.tags
    (r2.1, r2.2, r.2.2)

theorem read_tags_eq_of_ensure_false (env : Env) (util : Snap7Util)
    (m : PLCManager) (h : (m.ensure_connection env).1 = false) :
    m.read_tags env util
      = ([], (m.ensure_connection env).2.1, (m.ensure_connection env).2.2) := by
  unfold PLCManager.read_tags
  simp [h]

theorem read_tags_eq_of_ensure_true (env : Env) (util : Snap7Util)
    (m : PLCManager) (h : (m.ensure_connection env).1 = true) :
    m.read_tags env util
      = ((read_tags_go env util (m.ensure_connection env).2.1 []
           (m.ensure_connection env).2.1.tags).1,
         (read_tags_go env util (m.ensure_connection env).2.1 []
           (m.ensure_connection env).2.1.tags).2,
         (m.ensure_connection env).2.2) := by
  unfold PLCManager.read_tags
  simp [h]

theorem connect_tags (env : Env) (m : PLCManager) :
    (m.connect env).1.tags = m.tags := by
  unfold PLCManager.connect
  split
  · rfl
  · cases env.connect <;> rfl

theorem ensure_tags (env : Env) (m : PLCManager) :
    (m.ensure_connection env).2.1.tags = m.tags := by
  unfold PLCManager.ensure_connection
  split
  · exact connect_tags env { m with connected := false }
  · rfl

theorem read_tags_go_all_ok (env : Env) (util : Snap7Util)
    (m : PLCManager) (tags : List Tag) (vs : Tag → Value)
    (h : ∀ t ∈ tags, readOne env util t = .ok (vs t)) (values) :
    read_tags_go env util m values tags
      = (tags.foldl (fun acc t => alistSet acc t.name (vs t)) values, m) := by
  induction tags generalizing values with
  | nil => rfl
  | cons t rest ih =>
    have ht := h t (by simp)
    simp only [read_tags_go, ht, List.foldl_cons]
    exact ih (fun t' ht' => h t' (by simp [ht'])) _

theorem read_tags_go_fails (env : Env) (util : Snap7Util)
    (m : PLCManager) (pre post : List Tag) (bad : Tag) (vs : Tag → Value)
    (e : String)
    (hpre : ∀ t ∈ pre, readOne env util t = .ok (vs t))
    (hbad : readOne env util bad = .error e) (values) :
    read_tags_go env util m values (pre ++ bad :: post)
      = (pre.foldl (fun acc t => alistSet acc t.name (vs t)) values,
         { m with
           last_error := some ("Read error for " ++ bad.name ++ ": " ++ e),
           connected := false }) := by
  induction pre generalizing values with
  | nil => simp [read_tags_go, hbad]
  | cons t rest ih =>
    have ht := hpre t (by simp)
    simp only [List.cons_append, read_tags_go, ht, List.foldl_cons]
    exact ih (fun t' ht' => hpre t' (by simp [ht'])) _

/-- Claim C2: `read_tags` returns exactly a prefix of the descriptor list
read in declared order — an empty map when `_ensure_connection` fails, and
on the first failing descriptor the partial map of the earlier descriptors,
with the error recorded and the state forced to disconnected. -/
theorem c2_read_tags_truncation (env : Env) (util : Snap7Util) (m : PLCManager)
    (pre post : List Tag) (bad : Tag) (vs : Tag → Value) (e : String) :
    ((m.ensure_connection env).1 = false → (m.read_tags env util).1 = []) ∧
    ((m.ensure_connection env).1 = true →
     m.tags = pre ++ bad :: post →
     (∀ t ∈ pre, readOne env util t = .ok (vs t)) →
     readOne env util bad = .error e →
     (m.read_tags env util).1
       = pre.foldl (fun acc t => alistSet acc t.name (vs t)) [] ∧
     (m.read_tags env util).2.1.connected = false ∧
     (m.read_tags env util).2.1.last_error
       = some ("Read error for " ++ bad.name ++ ": " ++ e)) := by
  constructor
  · intro h
    rw [read_tags_eq_of_ensure_false env util m h]
  · intro h htags hpre hbad
    have ht : (m.ensure_connection env).2.1.tags = pre ++ bad :: post := by
      rw [ensure_tags, htags]
    rw [read_tags_eq_of_ensure_true env util m h, ht,
      read_tags_go_fails env util (m.ensure_connection env).2.1
        pre post bad vs e hpre hbad []]
    exact ⟨rfl, rfl, rfl⟩

/-- Claim C3: when the manager is connected and the session reports alive,
`_ensure_connection` returns true with zero `client.connect` calls, and so
does a second call on the resulting state. -/
theorem c3_ensure_idempotent (env : Env) (m : PLCManager)
    (h1 : m.connected = true) (h2 : env.alive = true) :
    (m.ensure_connection env).1 = true ∧
    (m.ensure_connection env).2.2 = 0 ∧
    ((m.ensure_connection env).2.1.ensure_connection env).1 = true ∧
    ((m.ensure_connection env).2.1.ensure_connection env).2.2 = 0 := by
  have e1 : m.ensure_connection env = (m.connected, m, 0) := by
    unfold PLCManager.ensure_connection
    rw [h1, h2]
    rfl
  rw [e1]
  simp [h1]
  unfold PLCManager.ensure_connection
  rw [h1, h2]
  simp

/-- A trivial environment: connection succeeds, session alive, reads
return an empty buffer. -/
def envTriv : Env := ⟨.ok true, true, fun _ _ _ => .ok []⟩

/-- Trivial decoders for witnesses. -/
def utilTriv : Snap7Util :=
  ⟨fun _ => .ok (.real 0), fun _ => .ok (.int 0),
   fun _ => .ok (.dint 0), fun _ => .ok (.bool false)⟩

/-- A concrete already-connected manager. -/
def mConn : PLCManager :=
  { PLCManager.init "dev" "ip" 0 1 [] with connected := true }

/-- Witness for C3: a concrete connected manager and alive session — both
calls return true and perform zero connection attempts. -/
theorem c3_ensure_idempotent_witness :
    (mConn.ensure_connection envTriv).1 = true ∧
    (mConn.ensure_connection envTriv).2.2 = 0 ∧
    ((mConn.ensure_connection envTriv).2.1.ensure_connection envTriv).1
      = true ∧
    ((mConn.ensure_connection envTriv).2.1.ensure_connection envTriv).2.2
      = 0 :=
  c3_ensure_idempotent envTriv mConn rfl rfl

/-- The state invariant of Claim C10: a connected manager never has a
recorded error. -/
def ConnInv (m : PLCManager) : Prop :=
  m.connected = true → m.last_error = none

theorem connect_ConnInv (env : Env) (m : PLCManager) (h : ConnInv m) :
    ConnInv (m.connect env).1 := by
  unfold PLCManager.connect
  split
  · exact h
  · cases henv : env.connect with
    | ok b =>
      cases b <;> intro hc <;> simp_all [ConnInv]
    | error e =>
      intro hc
      simp_all

theorem ensure_ConnInv (env : Env) (m : PLCManager) (h : ConnInv m) :
    ConnInv (m.ensure_connection env).2.1 := by
  unfold PLCManager.ensure_connection
  split
  · exact connect_ConnInv env { m with connected := false }
      (by intro hc; simp_all)
  · exact h

theorem read_tags_go_ConnInv (env : Env) (util : Snap7Util)
    (tags : List Tag) (m : PLCManager) (values : List (String × Value))
    (h : ConnInv m) :
    ConnInv (read_tags_go env util m values tags).2 := by
  induction tags generalizing m values with
  | nil => exact h
  | cons t rest ih =>
    simp only [read_tags_go]
    cases readOne env util t with
    | ok v => exact ih _ _ h
    | error e =>
      intro hc
      simp_all

/-- Claim C10: the invariant `connected → no recorded error` holds of a
freshly constructed manager and is preserved by `connect`,
`_ensure_connection`, and `read_tags`. -/
theorem c10_inv_preserved (env : Env) (util : Snap7Util) (m : PLCManager)
    (name ip : String) (rack slot : Int) (tags : List Tag)
    (h : ConnInv m) :
    ConnInv (PLCManager.init name ip rack slot tags) ∧
    ConnInv (m.connect env).1 ∧
    ConnInv (m.ensure_connection env).2.1 ∧
    ConnInv (m.read_tags env util).2.1 := by
  refine ⟨fun _ => rfl, connect_ConnInv env m h, ensure_ConnInv env m h, ?_⟩
  have hens := ensure_ConnInv env m h
  by_cases hc : (m.ensure_connection env).1 = true
  · rw [read_tags_eq_of_ensure_true env util m hc]
    exact read_tags_go_ConnInv env util _ _ _ hens
  · rw [read_tags_eq_of_ensure_false env util m (by simpa using hc)]
    exact hens

/-- Witness for C10: the invariant holds after each operation on a
concrete fresh manager driven by a concrete environment. -/
theorem c10_inv_preserved_witness :
    ConnInv (PLCManager.init "d" "i" 0 1 []) ∧
    ConnInv ((PLCManager.init "d" "i" 0 1 []).connect envTriv).1 ∧
    ConnInv ((PLCManager.init "d" "i" 0 1 []).ensure_connection
      envTriv).2.1 ∧
    ConnInv ((PLCManager.init "d" "i" 0 1 []).read_tags
      envTriv utilTriv).2.1 :=
  c10_inv_preserved envTriv utilTriv (PLCManager.init "d" "i" 0 1 [])
    "d" "i" 0 1 [] (fun _ => rfl)

/-- Witness configuration for C2: five "real" tags on data blocks 1–5. -/
def tagW (nm : String) (db : Int) : Tag :=
  ⟨nm, db, 0, 4, "real", none⟩

/-- Witness environment: connection succeeds; `db_read` raises "boom" on
data block 3 and otherwise returns the block number as a one-byte buffer. -/
def envW : Env :=
  ⟨.ok true, true,
   fun db _ _ => if db = 3 then .error "boom" else .ok [db.toNat]⟩

/-- Witness decoders: `get_real` reads the first byte. -/
def utilW : Snap7Util :=
  ⟨fun raw => .ok (.real (Int.ofNat (raw.headD 0))),
   fun _ => .error "unused", fun _ => .error "unused",
   fun _ => .error "unused"⟩

/-- Expected decoded value per witness tag. -/
def vsW : Tag → Value := fun t => .real t.db_number

/-- Witness manager: five signals, the third of which will fail. -/
def mW : PLCManager :=
  PLCManager.init "dev" "192.168.0.10" 0 1
    [tagW "s1" 1, tagW "s2" 2, tagW "s3" 3, tagW "s4" 4, tagW "s5" 5]

/-- Witness for C2: the spec's scenario — the 3rd of 5 signals fails, the
result holds exactly the first two values, and the manager is
disconnected with the error recorded. -/
theorem c2_read_tags_truncation_witness :
    (mW.read_tags envW utilW).1 = [("s1", .real 1), ("s2", .real 2)] ∧
    (mW.read_tags envW utilW).2.1.connected = false ∧
    (mW.read_tags envW utilW).2.1.last_error
      = some "Read error for s3: boom" := by
  have h := (c2_read_tags_truncation envW utilW mW
      [tagW "s1" 1, tagW "s2" 2] [tagW "s4" 4, tagW "s5" 5] (tagW "s3" 3)
      vsW "boom").2 (by decide) rfl (by decide) (by decide)
  exact ⟨h.1.trans (by decide), h.2.1, h.2.2.trans (by decide)⟩

/-- A descriptor whose `data_type` is not one of the four supported names. -/
def tagBad : Tag := ⟨"s1", 1, 0, 4, "str", none⟩

/-- A well-typed descriptor placed after the bad one. -/
def tagGood : Tag := ⟨"s2", 2, 0, 4, "real", none⟩

/-- A manager whose first descriptor has the unsupported type. -/
def mC7 : PLCManager := PLCManager.init "dev" "ip" 0 1 [tagBad, tagGood]

/-- Counterexample to Claim C7 as stated: with an unsupported-type first
descriptor, the second descriptor reads fine on its own, yet `read_tags`
returns no value for it (the cycle is aborted by the `break`) and the
connection state is forced to disconnected — the error is NOT contained to
that descriptor alone. -/
theorem c7_counterexample :
    readOne envW utilW tagGood = .ok (.real 2) ∧
    (mC7.read_tags envW utilW).1 = [] ∧
    (mC7.read_tags envW utilW).2.1.connected = false ∧
    (mC7.read_tags envW utilW).2.1.last_error
      = some "Read error for s1: Unsupported data type: str" := by
  refine ⟨by decide, by decide, by decide, by decide⟩

/-- Claim C7 (amended): an unsupported signal type discovered at per-read
time is caught like any read failure — the polling thread survives (the
embedding returns normally), the error is recorded, the state is forced to
disconnected, and the remaining descriptors of that cycle are skipped. -/
theorem c7_unknown_type_fatal_for_cycle (env : Env) (util : Snap7Util)
    (m : PLCManager) (bad : Tag) (rest : List Tag) (raw : List Nat)
    (henv : (m.ensure_connection env).1 = true)
    (htags : m.tags = bad :: rest)
    (hparse : bad.parse = none)
    (h1 : pyLower bad.data_type ≠ "real")
    (h2 : pyLower bad.data_type ≠ "int")
    (h3 : pyLower bad.data_type ≠ "dint")
    (h4 : pyLower bad.data_type ≠ "bool")
    (hread : env.db_read bad.db_number bad.start bad.size = .ok raw) :
    (m.read_tags env util).1 = [] ∧
    (m.read_tags env util).2.1.connected = false ∧
    (m.read_tags env util).2.1.last_error
      = some ("Read error for " ++ bad.name ++ ": "
          ++ ("Unsupported data type: " ++ bad.data_type)) := by
  have hro : readOne env util bad
      = .error ("Unsupported data type: " ++ bad.data_type) := by
    unfold readOne
    rw [hread]
    unfold parse_value
    rw [hparse]
    simp [h1, h2, h3, h4]
  have ht : (m.ensure_connection env).2.1.tags = bad :: rest := by
    rw [ensure_tags, htags]
  rw [read_tags_eq_of_ensure_true env util m henv, ht]
  simp [read_tags_go, hro]

/-- Witness for the amended C7: the concrete unsupported-type scenario. -/
theorem c7_unknown_type_fatal_for_cycle_witness :
    (mC7.read_tags envW utilW).1 = [] ∧
    (mC7.read_tags envW utilW).2.1.connected = false ∧
    (mC7.read_tags envW utilW).2.1.last_error
      = some "Read error for s1: Unsupported data type: str" := by
  have h := c7_unknown_type_fatal_for_cycle envW utilW mC7 tagBad [tagGood]
    [1] (by decide) rfl rfl (by decide) (by decide) (by decide) (by decide)
    (by decide)
  exact ⟨h.1, h.2.1, h.2.2.trans (by decide)⟩

/-- Python string truthiness for `Optional[str]`: `None` and `""` are
falsy (the `elif manager.last_error:` test). -/
def pyTruthy : Option String → Bool
  | none => false
  | some s => !(s == "")

/-- One device's entry of the `/data` status string (source lines
326–332).  The code's literals are German: "verbunden" when connected,
"nicht verbunden" when disconnected without a truthy error. -/
def statusLine (m : PLCManager) : String :=
  if m.connected then m.name ++ ": verbunden"
  else if pyTruthy m.last_error then m.name ++ ": " ++ m.last_error.getD ""
  else m.name ++ ": nicht verbunden"

/-- Python `sep.join(parts)`. -/
def joinSep (sep : String) : List String → String
  | [] => ""
  | [s] => s
  | s :: rest => s ++ sep ++ joinSep sep rest

/-- The status summary built by the `/data` endpoint (source lines
325–333): per-device lines in configuration order joined with " | ". -/
def getStatusSummary (ms : List PLCManager) : String :=
  joinSep " | " (ms.map statusLine)

/-- A connected device named dev1. -/
def dev1 : PLCManager :=
  { PLCManager.init "dev1" "ip" 0 1 [] with connected := true }

/-- A disconnected device named dev2 with error "timeout". -/
def dev2 : PLCManager :=
  { PLCManager.init "dev2" "ip" 0 1 [] with last_error := some "timeout" }

/-- Counterexample to Claim C4 as stated: the code renders the German
literal "verbunden", not "connected", so the claimed exact string is not
produced. -/
theorem c4_counterexample :
    getStatusSummary [dev1, dev2] = "dev1: verbunden | dev2: timeout" ∧
    getStatusSummary [dev1, dev2] ≠ "dev1: connected | dev2: timeout" := by
  refine ⟨by decide, by decide⟩

/-- Claim C4 (amended): the summary renders, in configuration order,
"<name>: verbunden" for a connected device, "<name>: <error>" for a
disconnected device with a recorded (non-empty) error, joined with the
fixed separator " | " — for a connected dev1 and a dev2 with error
"timeout" this yields "dev1: verbunden | dev2: timeout". -/
theorem c4_status_summary (m1 m2 : PLCManager) (e : String)
    (h1 : m1.connected = true) (h2 : m2.connected = false)
    (h3 : m2.last_error = some e) (he : e ≠ "") :
    getStatusSummary [m1, m2]
      = m1.name ++ ": verbunden" ++ " | " ++ (m2.name ++ ": " ++ e) := by
  have hb : (e == "") = false := beq_eq_false_iff_ne.mpr he
  simp [getStatusSummary, statusLine, joinSep, h1, h2, h3, pyTruthy, hb]

/-- Witness for the amended C4: the concrete two-device scenario. -/
theorem c4_status_summary_witness :
    getStatusSummary [dev1, dev2] = "dev1: verbunden | dev2: timeout" := by
  have h := c4_status_summary dev1 dev2 "timeout" rfl rfl rfl (by decide)
  exact h.trans (by decide)

/-- A JSON-like value, for stating response shapes. -/
inductive Json where
  | str : String → Json
  | bool : Bool → Json
  | obj : List (String × Json) → Json

/-- Field lookup on a JSON object. -/
def jsonObjGet : Json → String → Option Json
  | .obj fields, k => alistGet fields k
  | _, _ => none

/-- The `/health` endpoint (source lines 336–338):
`{"status": "ok", "plcs": {m.name: m.connected for m in managers}}`. -/
def health (ms : List PLCManager) : Json :=
  .obj [("status", .str "ok"),
        ("plcs", .obj (ms.map fun m => (m.name, .bool m.connected)))]

/-- Counterexample to Claim C6 as stated: the per-device boolean map is
under the key "plcs", not "devices" — the response has no "devices"
field at all. -/
theorem c6_counterexample :
    jsonObjGet (health [dev1]) "devices" = none ∧
    jsonObjGet (health [dev1]) "plcs"
      = some (.obj [("dev1", .bool true)]) := by
  exact ⟨rfl, rfl⟩

/-- Claim C6 (amended): the health endpoint returns
`{ status: "ok", plcs: { deviceName: bool } }` where the boolean per
device name is that device's current connected flag. -/
theorem c6_health_shape (ms : List PLCManager) :
    jsonObjGet (health ms) "status" = some (.str "ok") ∧
    jsonObjGet (health ms) "plcs"
      = some (.obj (ms.map fun m => (m.name, Json.bool m.connected))) := by
  exact ⟨rfl, rfl⟩

/-- Python `str.split(",")` — keeps empty fields; splitting "" gives
`[""]`. -/
def pySplitCommaAux : List Char → List Char → List String
  | [], acc => [String.mk acc.reverse]
  | c :: cs, acc =>
    if c = ',' then String.mk acc.reverse :: pySplitCommaAux cs []
    else pySplitCommaAux cs (c :: acc)

/-- Python `selected_param.split(",")`. -/
def pySplitComma (s : String) : List String :=
  pySplitCommaAux s.data []

/-- The `/data` endpoint (source lines 320–333): read the `signals` query
parameter (absent reads as ""), split on commas, drop falsy (empty)
entries, snapshot the selected keys, and attach the status summary. -/
def dataEndpoint (b : DataBuffer α) (ms : List PLCManager)
    (signalsParam : Option String) : List (String × List α) × String :=
  let selected_param := signalsParam.getD ""
  let selected := (pySplitComma selected_param).filter (fun s => s != "")
  ((b.snapshot selected).1, getStatusSummary ms)

/-- Claim C8: an empty or absent `signals` parameter yields an empty
series map (so in particular no phantom empty-string key) together with
the standard status string; the embedding is total, so no error is
raised. -/
theorem c8_empty_param (b : DataBuffer α) (ms : List PLCManager) :
    (dataEndpoint b ms none).1 = [] ∧
    (dataEndpoint b ms (some "")).1 = [] ∧
    (dataEndpoint b ms none).2 = getStatusSummary ms ∧
    (dataEndpoint b ms (some "")).2 = getStatusSummary ms := by
  exact ⟨rfl, rfl, rfl, rfl⟩

end PLCDash
